import Mathlib

/-!
Verification of the record decoding engine and batch pipeline of the
mortality multiple-cause-of-death dataset converter (`src/main.py`,
`src/schema.py`, `src/utils.py`).

The embedding models the source's `Result` values together with unhandled
exceptions: a Python function can return `Ok`, return `Err`, or raise.
-/

/-- Outcome of a source function: `Ok`, `Err`, or an uncaught exception
(`crash`, e.g. `KeyError` / `IndexError`), which the source's
`@propagate_result` decorator does not intercept. -/
inductive PRes (α : Type) where
  | ok (a : α)
  | err (e : String)
  | crash (e : String)
deriving DecidableEq

def PRes.bindR {α β : Type} : PRes α → (α → PRes β) → PRes β
  | .ok a, f => f a
  | .err e, _ => .err e
  | .crash e, _ => .crash e

instance : Monad PRes where
  pure := PRes.ok
  bind := PRes.bindR

/-- Sequential map with first-failure propagation: the per-line loops in the
source process elements in order and abort on the first `Err`/raise. -/
def mapPRes {α β : Type} (f : α → PRes β) : List α → PRes (List β)
  | [] => .ok []
  | x :: xs =>
    (f x).bindR (fun b => (mapPRes f xs).bindR (fun bs => .ok (b :: bs)))

/-- Whitespace characters removed by Python's `str.strip()`. -/
def pyIsSpace (c : Char) : Bool :=
  c == ' ' || c == '\t' || c == '\n' || c == '\r' || c == '\x0b' || c == '\x0c'

/-- Model of `str.strip()` on a character list: drop whitespace from both ends. -/
def pyStrip (cs : List Char) : List Char :=
  ((cs.dropWhile pyIsSpace).reverse.dropWhile pyIsSpace).reverse

def digitsToNat (ds : List Char) : Nat :=
  ds.foldl (fun n c => n * 10 + (c.toNat - 48)) 0

/-- Python `int(s)`: strip whitespace, optional sign, decimal digits. -/
def pyInt? (s : String) : Option Int :=
  match pyStrip s.data with
  | [] => none
  | '-' :: ds =>
    if ds ≠ [] ∧ ds.all Char.isDigit then some (-(digitsToNat ds : Int)) else none
  | '+' :: ds =>
    if ds ≠ [] ∧ ds.all Char.isDigit then some (digitsToNat ds : Int) else none
  | ds =>
    if ds.all Char.isDigit then some (digitsToNat ds : Int) else none

/-- Translation of `utils.try_parse_int`: `Ok(int(s))` or `Err` on `ValueError`. -/
def try_parse_int (s : String) : PRes Int :=
  match pyInt? s with
  | some i => .ok i
  | none => .err ("Could not parse '" ++ s ++ "' as an integer.")

/-- Model of `dict.get` on an association-list rendering of a Python dict literal. -/
def dictGet {α β : Type} [BEq α] (d : List (α × β)) (k : α) : Option β :=
  (d.find? (fun p => p.1 == k)).map Prod.snd

/-- Model of `dict.get` for a dict whose values may themselves be `None`
(the source conflates "missing key" and "value None"). -/
def pyGet {α : Type} [BEq α] (d : List (α × Option String)) (k : α) : Option String :=
  (dictGet d k).bind id

/-- Model of `k in d.keys()` for a dict whose values may be `None`. -/
def pyHasKey {α β : Type} [BEq α] (d : List (α × β)) (k : α) : Bool :=
  (dictGet d k).isSome

/-- Translation of `utils.get_in_range`: first inclusive range containing `v`, returning its
(possibly `None`) value. -/
def get_in_range (d : List ((Int × Int) × Option String)) (v : Int) : Option String :=
  match d.find? (fun p => decide (p.1.1 ≤ v ∧ v ≤ p.1.2)) with
  | some p => p.2
  | none => none

/-- Translation of `utils.range_keyed_dict_has_key`. -/
def range_keyed_dict_has_key (d : List ((Int × Int) × Option String)) (v : Int) : Bool :=
  (d.find? (fun p => decide (p.1.1 ≤ v ∧ v ≤ p.1.2))).isSome

/-- Python truthiness of an optional string (`None` and `""` are falsy). -/
def truthyStr (o : Option String) : Bool :=
  match o with
  | none => false
  | some s => s != ""

/-- Python truthiness of an optional bool. -/
def truthyBool (o : Option Bool) : Bool :=
  match o with
  | none => false
  | some b => b

/-- Python truthiness of an optional int (`None` and `0` are falsy). -/
def truthyInt (o : Option Int) : Bool :=
  match o with
  | none => false
  | some i => i != 0

/-- Model of `value[a:b]` slicing on a string (never raises). -/
def pyTake (s : String) (n : Nat) : String := String.mk (s.data.take n)

def pyDrop (s : String) (n : Nat) : String := String.mk (s.data.drop n)

/-- Model of `value[i]` indexing: raises `IndexError` when out of range. -/
def pyCharAt (s : String) (i : Nat) : PRes String :=
  match s.data.get? i with
  | some c => .ok (String.mk [c])
  | none => .crash "IndexError: string index out of range"

/-- Model of `"A_B".split("_")` on a character list. -/
def splitUnder : List Char → List (List Char)
  | [] => [[]]
  | c :: rest =>
    match splitUnder rest with
    | [] => if c == '_' then [[], []] else [[c]]
    | h :: t => if c == '_' then [] :: h :: t else (c :: h) :: t

def pySplitUnderscore (s : String) : List String :=
  (splitUnder s.data).map String.mk

/-! ### Code tables (`src/schema.py`) -/

def record_type_mapping : List (Int × String) :=
  [(1, "RESIDENTS"), (2, "NONRESIDENTS")]

def resident_status_mapping : List (Int × String) :=
  [(1, "RESIDENT"), (2, "INTRASTATE_NONRESIDENT"),
   (3, "INTERSTATE_NONRESIDENT"), (4, "FOREIGN_RESIDENT")]

def education_mapping : List (Int × Option String) :=
  [(1, some "8TH_GRADE_OR_LESS"),
   (2, some "9_12TH_GRADE_NO_DIPLOMA"),
   (3, some "HIGH_SCHOOL_GRADUATE_OR_GED_COMPLETED"),
   (4, some "SOME_COLLEGE_CREDIT_NO_DEGREE"),
   (5, some "ASSOCIATE_DEGREE"),
   (6, some "BACHELOR_DEGREE"),
   (7, some "MASTER_DEGREE"),
   (8, some "DOCTORATE_DEGREE_OR_PROFESSIONAL_DEGREE"),
   (9, none)]

def education_reporting_flag_mapping : List (Int × String) :=
  [(1, "2003_REVISION"), (2, "NO_EDUCATION_ITEM_ON_CERTIFICATE")]

def sex_mapping : List (String × String) :=
  [("M", "M"), ("F", "F")]

def place_of_death_mapping : List (Int × Option String) :=
  [(1, some "HOSPITAL_CLINIC_OR_MEDICAL_CENTER_INPATIENT"),
   (2, some "HOSPITAL_CLINIC_OR_MEDICAL_CENTER_OUTPATIENT_OR_ER"),
   (3, some "HOSPITAL_CLINIC_OR_MEDICAL_CENTER_DEAD_ON_ARRIVAL"),
   (4, some "DECEDENT_S_HOME"),
   (5, some "HOSPICE_FACILITY"),
   (6, some "NURSING_HOME_LONG_TERM_CARE"),
   (7, some "OTHER"),
   (9, none)]

def marital_status_mapping : List (String × Option String) :=
  [("S", some "NEVER_MARRIED_SINGLE"), ("M", some "MARRIED"),
   ("W", some "WIDOWED"), ("D", some "DIVORCED"), ("U", none)]

def day_of_week_of_death_mapping : List (Int × Option String) :=
  [(1, some "SUNDAY"), (2, some "MONDAY"), (3, some "TUESDAY"),
   (4, some "WEDNESDAY"), (5, some "THURSDAY"), (6, some "FRIDAY"),
   (7, some "SATURDAY"), (9, none)]

def injury_at_work_mapping : List (String × Option Bool) :=
  [("Y", some true), ("N", some false), ("U", none)]

def manner_of_death_mapping : List (Int × String) :=
  [(1, "ACCIDENT"), (2, "SUICIDE"), (3, "HOMICIDE"),
   (4, "PENDING_INVESTIGATION"), (5, "COULD_NOT_DETERMINE"),
   (6, "SELF_INFLICTED"), (7, "NATURAL")]

def method_of_disposition_mapping : List (String × Option String) :=
  [("B", some "BURIAL"), ("C", some "CREMATION"), ("D", some "DONATION"),
   ("E", some "ENTOMBMENT"), ("O", some "OTHER"),
   ("R", some "REMOVAL_FROM_JURISDICTION"), ("U", none)]

def autopsy_mapping : List (String × Option Bool) :=
  [("Y", some true), ("N", some false), ("U", none)]

def activity_code_mapping : List (Int × Option String) :=
  [(0, some "ENGAGED_IN_SPORTS"), (1, some "ENGAGED_IN_LEISURE_ACTIVITY"),
   (2, some "WORKING_FOR_INCOME"), (3, some "ENGAGED_IN_OTHER_TYPES_OF_WORK"),
   (4, some "VITAL_ACTIVITIES"), (8, none), (9, none)]

def place_of_injury_mapping : List (Int × Option String) :=
  [(0, some "HOME"), (1, some "RESIDENTIAL_INSTITUTION"),
   (2, some "INSTITUTION_OR_PUBLIC_ADMINISTRATIVE_AREA"),
   (3, some "SPORTS_AND_ATTHLETICS_AREA"), (4, some "STREET_AND_HIGHWAY"),
   (5, some "TRADE_AND_SERVICE_AREA"),
   (6, some "INDUSTRIAL_AND_CONSTRUCTION_AREA"), (7, some "FARM"),
   (8, none), (9, none)]

def race_recode_6_mapping : List (Int × String) :=
  [(1, "WHITE"), (2, "BLACK"), (3, "AMERICAN_INDIAN_AND_ALASKA_NATIVE"),
   (4, "ASIAN"), (5, "NATIVE_HAWAIIAN_AND_OTHER_PACIFIC_ISLANDER"),
   (6, "MORE_THAN_ONE_R")]

def hispanic_origin_mapping : List ((Int × Int) × Option String) :=
  [((100, 199), some "NON_HISPANIC"), ((200, 209), some "SPANIARD"),
   ((210, 219), some "MEXICAN"), ((220, 230), some "CENTRAL_AMERICAN"),
   ((231, 249), some "SOUTH_AMERICAN"), ((250, 259), some "LATIN_AMERICAN"),
   ((260, 269), some "PUERTO_RICAN"), ((270, 274), some "CUBAN"),
   ((275, 279), some "DOMINICAN"), ((280, 299), some "OTHER_HISPANIC"),
   ((996, 999), none)]

def hispanic_origin_race_recode_mapping : List (Int × Option String) :=
  [(1, some "MEXICAN"), (2, some "PUERTO_RICAN"), (3, some "CUBAN"),
   (4, some "DOMINICAN"), (5, some "CENTRAL_AMERICAN"),
   (6, some "SOUTH_AMERICAN"), (7, some "OTHER_HISPANIC"),
   (8, some "NON_HISPANIC_WHITE"), (9, some "NON_HISPANIC_BLACK"),
   (10, some "NON_HISPANIC_AMERICAN_INDIAN_AND_ALASKA_NATIVE"),
   (11, some "NON_HISPANIC_ASIAN"),
   (12, some "NON_HISPANIC_NATIVE_HAWAIIAN_AND_OTHER_PACIFIC_ISLANDER"),
   (13, some "NON_HISPANIC_MORE_THAN_ONE_R"), (14, none)]

def race_recode_40_mapping : List (Int × String) :=
  [(1, "WHITE"), (2, "BLACK"), (3, "AIAN"), (4, "ASIAN_INDIAN"),
   (5, "CHINESE"), (6, "FILIPINO"), (7, "JAPANESE"), (8, "KOREAN"),
   (9, "VIETNAMESE"), (10, "OTHER_ASIAN"), (11, "HAWAIIAN"),
   (12, "GUAMANIAN"), (13, "SAMOAN"), (14, "OTHER_PACIFIC_ISLANDER"),
   (15, "BLACK_WHITE"), (16, "BLACK_AIAN"), (17, "BLACK_ASIAN"),
   (18, "BLACK_NHOPI"), (19, "AIAN_WHITE"), (20, "AIAN_ASIAN"),
   (21, "AIAN_NHOPI"), (22, "ASIAN_WHITE"), (23, "ASIAN_NHOPI"),
   (24, "NHOPI_WHITE"), (25, "BLACK_AIAN_WHITE"), (26, "BLACK_AIAN_ASIAN"),
   (27, "BLACK_AIAN_NHOPI"), (28, "BLACK_ASIAN_WHITE"),
   (29, "BLACK_ASIAN_NHOPI"), (30, "BLACK_NHOPI_WHITE"),
   (31, "AIAN_ASIAN_WHITE"), (32, "AIAN_NHOPI_WHITE"),
   (33, "AIAN_ASIAN_NHOPI"), (34, "ASIAN_NHOPI_WHITE"),
   (35, "BLACK_AIAN_ASIAN_WHITE"), (36, "BLACK_AIAN_ASIAN_NHOPI"),
   (37, "BLACK_AIAN_NHOPI_WHITE"), (38, "BLACK_ASIAN_NHOPI_WHITE"),
   (39, "AIAN_ASIAN_NHOPI_WHITE"), (40, "BLACK_AIAN_ASIAN_NHOPI_WHITE")]

/-- The element type declared for the `race_recode_40` column in
`schema.dataset_schema`: `pl.Enum(list(race_recode_40_mapping.values())[:15])`. -/
def race_recode_40_enum_values : List String :=
  ((race_recode_40_mapping.map Prod.snd).take 15)

def decedent_occupation_recode_mapping : List (Int × Option String) :=
  [(1, some "MANAGEMENT"), (2, some "BUSINESS_AND_FINANCIAL_OPERATIONS"),
   (3, some "COMPUTATIONAL_AND_MATHEMATICAL"),
   (4, some "ARCHITECTURE_AND_ENGINEERING"),
   (5, some "LIFE_PHYSICAL_AND_SOCIAL_SCIENCE"),
   (6, some "COMMUNITY_AND_SOCIAL_SERVICES"), (7, some "LEGAL"),
   (8, some "EDUCATION_TRAINING_AND_LIBRARY"),
   (9, some "ARTS_DESIGN_ENTERTAINMENT_SPORTS_AND_MEDIA"),
   (10, some "HEALTHCARE_PRACTITIONERS_AND_TECHNICAL"),
   (11, some "HEALTHCARE_SUPPORT"), (12, some "PROTECTIVE_SERVICE"),
   (13, some "FOOD_PREPARATION_AND_SERVING"),
   (14, some "BUILDING_AND_GROUNDS_CLEANING_AND_MAINTENANCE"),
   (15, some "PERSONAL_CARE_AND_SERVICE"), (16, some "SALES_AND_RELATED"),
   (17, some "OFFICE_AND_ADMINISTRATIVE_SUPPORT"),
   (18, some "FARMING_FISHING_AND_FORESTRY"),
   (19, some "CONSTRUCTION_AND_EXTRACTION"),
   (20, some "INSTALLATION_MAINTENANCE_AND_REPAIR"),
   (21, some "PRODUCTION"), (22, some "TRANSPORTATION_AND_MATERIAL_MOVING"),
   (24, some "MILITARY"), (25, none), (26, some "HOUSEWIFE")]

def decedent_industry_recode_mapping : List (Int × Option String) :=
  [(1, some "AGRICULTURE_FORESTRY_FISHING_AND_HUNTING"), (2, some "MINING"),
   (3, some "UTILITIES"), (4, some "CONSTRUCTION"), (5, some "MANUFACTURING"),
   (6, some "WHOLESALE_TRADE"), (7, some "RETAIL_TRADE"),
   (8, some "TRANSPORTATION_AND_WAREHOUSING"), (9, some "INFORMATION"),
   (10, some "FINANCE_AND_INSURANCE"),
   (11, some "REAL_ESTATE_RENTAL_AND_LEASING"),
   (12, some "PROFESSIONAL_SCIENTIFIC_AND_TECHNICAL_SERVICES"),
   (13, some "MANAGEMENT_OF_COMPANIES_AND_ENTERPRISES"),
   (14, some "ADMINISTRATIVE_AND_SUPPORT_AND_WASTE_MANAGEMENT_AND_REMEDIATION_SERVICES"),
   (15, some "EDUCATIONAL_SERVICES"),
   (16, some "HEALTH_CARE_AND_SOCIAL_ASSISTANCE"),
   (17, some "ARTS_ENTERTAINMENT_AND_RECREATION"),
   (18, some "ACCOMMODATION_AND_FOOD_SERVICES"),
   (19, some "OTHER_SERVICES_EXCEPT_PUBLIC_ADMINISTRATION"),
   (20, some "PUBLIC_ADMINISTRATION"), (22, some "MILITARY"), (23, none)]

/-! ### Duration unit constants (`src/main.py`, lines 615-619) -/

def MINUTES_AS_MS : Int := 60000
def HOURS_AS_MS : Int := 60 * MINUTES_AS_MS
def DAYS_AS_MS : Int := 24 * HOURS_AS_MS
def MONTHS_AS_MS : Int := 30 * DAYS_AS_MS
def YEARS_AS_MS : Int := 365 * DAYS_AS_MS

/-! ### Field decoders (`src/main.py`)

Each `process_*` takes the trimmed substring for its byte range and returns
the decoded optional value.  The source returns `(key, value)` pairs with a
constant key per decoder; the key is accounted for in `process_line_with`
below, which stores each value in its field of `ProcessedLine`. -/

def process_record_type (value : String) : PRes (Option String) :=
  if value = "" then .ok none
  else
    match try_parse_int value with
    | .ok v =>
      let mapped := dictGet record_type_mapping v
      if truthyStr mapped then .ok mapped
      else .err ("Invalid value for record_type: " ++ toString v)
    | .err e => .err e
    | .crash e => .crash e

def process_resident_status (value : String) : PRes (Option String) :=
  if value = "" then .ok none
  else
    match try_parse_int value with
    | .ok v =>
      let mapped := dictGet resident_status_mapping v
      if truthyStr mapped then .ok mapped
      else .err ("Invalid value for resident_status: " ++ toString v)
    | .err e => .err e
    | .crash e => .crash e

def process_education (value : String) : PRes (Option String) :=
  if value = "" then .ok none
  else
    match try_parse_int value with
    | .ok v =>
      let mapped := pyGet education_mapping v
      if truthyStr mapped || pyHasKey education_mapping v then .ok mapped
      else .err ("Invalid value for education: " ++ toString v)
    | .err e => .err e
    | .crash e => .crash e

def process_education_reporting_flag (value : String) : PRes (Option String) :=
  if value = "" then .ok none
  else
    match try_parse_int value with
    | .ok v =>
      let mapped := dictGet education_reporting_flag_mapping v
      if truthyStr mapped then .ok mapped
      else .err ("Invalid value for education_reporting_flag: " ++ toString v)
    | .err e => .err e
    | .crash e => .crash e

def process_month_of_death (value : String) : PRes (Option Int) :=
  if value = "" then .ok none
  else
    match try_parse_int value with
    | .ok v =>
      if 1 ≤ v ∧ v ≤ 12 then .ok (some v)
      else .err ("Invalid value for month_of_death: " ++ toString v)
    | .err e => .err e
    | .crash e => .crash e

def process_sex (value : String) : PRes (Option String) :=
  if value = "" then .ok none
  else
    let mapped := dictGet sex_mapping value
    if truthyStr mapped then .ok mapped
    else .err ("Invalid value for sex: " ++ value)

/-- Unit-selector-to-multiplier dict in `process_detail_age`; note it has no
entry for selector `3` although the enclosing guard admits `1 <= v <= 6`. -/
def detail_age_units : List (Int × Int) :=
  [(1, YEARS_AS_MS), (2, MONTHS_AS_MS), (4, DAYS_AS_MS),
   (5, HOURS_AS_MS), (6, MINUTES_AS_MS)]

def process_detail_age (value : String) : PRes (Option Int) :=
  if value = "" then .ok none
  else
    match try_parse_int (pyTake value 1) with
    | .ok based_on =>
      match try_parse_int (pyDrop value 1) with
      | .ok count =>
        if 1 ≤ based_on ∧ based_on ≤ 6 then
          match dictGet detail_age_units based_on with
          | some mult => .ok (some (count * mult))
          | none => .crash ("KeyError: " ++ toString based_on)
        else .ok none
      | .err e => .err e
      | .crash e => .crash e
    | .err e => .err e
    | .crash e => .crash e

def process_age_substitution_flag (value : String) : PRes Bool :=
  if value = "" then .ok false
  else
    match try_parse_int value with
    | .ok v =>
      if v = 1 then .ok true
      else .err ("Invalid value for age_substitution_flag: " ++ value)
    | .err e => .err e
    | .crash e => .crash e

def process_age_recode_52 (value : String) : PRes (Option (Int × Int)) :=
  if value = "" then .ok none
  else
    match try_parse_int value with
    | .ok v =>
      if 1 ≤ v ∧ v ≤ 51 then
        if v = 1 then .ok (some (0, HOURS_AS_MS))
        else if v = 2 then .ok (some (HOURS_AS_MS, 23 * HOURS_AS_MS))
        else if 3 ≤ v ∧ v ≤ 9 then
          .ok (some ((v - 2) * DAYS_AS_MS, (v - 2) * DAYS_AS_MS))
        else if 10 ≤ v ∧ v ≤ 11 then
          .ok (some ((14 + 7 * (v - 10)) * DAYS_AS_MS,
                     (13 + 7 * (v - 10 + 1)) * DAYS_AS_MS))
        else if 12 ≤ v ∧ v ≤ 22 then
          .ok (some ((v - 11) * MONTHS_AS_MS, (v - 11) * MONTHS_AS_MS))
        else if 23 ≤ v ∧ v ≤ 26 then
          .ok (some ((v - 22) * YEARS_AS_MS, (v - 22) * YEARS_AS_MS))
        else if 27 ≤ v ∧ v ≤ 50 then
          .ok (some ((5 + 5 * (v - 27)) * YEARS_AS_MS,
                     (4 + 5 * (v - 27 + 1)) * YEARS_AS_MS))
        else -- v = 51
          .ok (some (125 * YEARS_AS_MS, 999 * YEARS_AS_MS))
      else if v = 52 then .ok none
      else .err ("Invalid value for age_recode_52: " ++ toString v)
    | .err e => .err e
    | .crash e => .crash e

def process_age_recode_27 (value : String) : PRes (Option (Int × Int)) :=
  if value = "" then .ok none
  else
    match try_parse_int value with
    | .ok v =>
      if 1 ≤ v ∧ v ≤ 26 then
        if v = 1 then .ok (some (0, 1 * MONTHS_AS_MS))
        else if v = 2 then .ok (some (1 * MONTHS_AS_MS, 11 * MONTHS_AS_MS))
        else if 3 ≤ v ∧ v ≤ 6 then
          .ok (some ((v - 2) * YEARS_AS_MS, (v - 2) * YEARS_AS_MS))
        else if 7 ≤ v ∧ v ≤ 25 then
          .ok (some ((5 + 5 * (v - 7)) * YEARS_AS_MS,
                     (4 + 5 * (v - 7 + 1)) * YEARS_AS_MS))
        else -- v = 26
          .ok (some (100 * YEARS_AS_MS, 999 * YEARS_AS_MS))
      else if v = 27 then .ok none
      else .err ("Invalid value for age_recode_27: " ++ toString v)
    | .err e => .err e
    | .crash e => .crash e

def process_age_recode_12 (value : String) : PRes (Option (Int × Int)) :=
  if value = "" then .ok none
  else
    match try_parse_int value with
    | .ok v =>
      if 1 ≤ v ∧ v ≤ 11 then
        if v = 1 then .ok (some (0, 11 * MONTHS_AS_MS))
        else if v = 2 then .ok (some (1 * YEARS_AS_MS, 4 * YEARS_AS_MS))
        else if 3 ≤ v ∧ v ≤ 10 then
          .ok (some ((5 + 10 * (v - 3)) * YEARS_AS_MS,
                     (4 + 10 * (v - 3 + 1)) * YEARS_AS_MS))
        else -- v = 11
          .ok (some (85 * YEARS_AS_MS, 999 * YEARS_AS_MS))
      else if v = 12 then .ok none
      else .err ("Invalid value for age_recode_12: " ++ toString v)
    | .err e => .err e
    | .crash e => .crash e

def process_infant_age_recode_22 (value : String) : PRes (Option (Int × Int)) :=
  if value = "" then .ok none
  else
    match try_parse_int value with
    | .ok v =>
      if 1 ≤ v ∧ v ≤ 22 then
        if v = 1 then .ok (some (0, 59 * MINUTES_AS_MS))
        else if v = 2 then .ok (some (1 * HOURS_AS_MS, 23 * HOURS_AS_MS))
        else if 3 ≤ v ∧ v ≤ 8 then
          .ok (some ((v - 2) * DAYS_AS_MS, (v - 2) * DAYS_AS_MS))
        else if 9 ≤ v ∧ v ≤ 11 then
          .ok (some ((7 + 7 * (v - 9)) * DAYS_AS_MS,
                     (6 + 7 * (v - 9 + 1)) * DAYS_AS_MS))
        else -- 12 <= v <= 22
          .ok (some ((v - 11) * MONTHS_AS_MS, (v - 11) * MONTHS_AS_MS))
      else .err ("Invalid value for infant_age_recode_22: " ++ toString v)
    | .err e => .err e
    | .crash e => .crash e

def process_place_of_death (value : String) : PRes (Option String) :=
  if value = "" then .ok none
  else
    match try_parse_int value with
    | .ok v =>
      let mapped := pyGet place_of_death_mapping v
      if truthyStr mapped || pyHasKey place_of_death_mapping v then .ok mapped
      else .err ("Invalid value for place_of_death_and_decedents_status: " ++ value)
    | .err e => .err e
    | .crash e => .crash e

def process_marital_status (value : String) : PRes (Option String) :=
  if value = "" then .ok none
  else
    let mapped := pyGet marital_status_mapping value
    if truthyStr mapped || pyHasKey marital_status_mapping value then .ok mapped
    else .err ("Invalid value for marital_status: " ++ value)

def process_day_of_week_of_death (value : String) : PRes (Option String) :=
  if value = "" then .ok none
  else
    match try_parse_int value with
    | .ok v =>
      let mapped := pyGet day_of_week_of_death_mapping v
      if truthyStr mapped || pyHasKey day_of_week_of_death_mapping v then .ok mapped
      else .err ("Invalid value for day_of_week_of_death: " ++ value)
    | .err e => .err e
    | .crash e => .crash e

def process_injury_at_work (value : String) : PRes (Option Bool) :=
  if value = "" then .ok none
  else
    let mapped := (dictGet injury_at_work_mapping value).bind id
    if truthyBool mapped || pyHasKey injury_at_work_mapping value then .ok mapped
    else .err ("Invalid value for injury_at_work: " ++ value)

def process_manner_of_death (value : String) : PRes (Option String) :=
  if value = "" then .ok none
  else
    match try_parse_int value with
    | .ok v =>
      let mapped := dictGet manner_of_death_mapping v
      if truthyStr mapped then .ok mapped
      else .err ("Invalid value for manner_of_death: " ++ value)
    | .err e => .err e
    | .crash e => .crash e

def process_method_of_disposition (value : String) : PRes (Option String) :=
  if value = "" then .ok none
  else
    let mapped := pyGet method_of_disposition_mapping value
    if truthyStr mapped || pyHasKey method_of_disposition_mapping value then .ok mapped
    else .err ("Invalid value for method_of_disposition: " ++ value)

def process_autopsy (value : String) : PRes (Option Bool) :=
  if value = "" then .ok none
  else
    let mapped := (dictGet autopsy_mapping value).bind id
    if truthyBool mapped || pyHasKey autopsy_mapping value then .ok mapped
    else .err ("Invalid value for autopsy: " ++ value)

def process_activity_code (value : String) : PRes (Option String) :=
  if value = "" then .ok none
  else
    match try_parse_int value with
    | .ok v =>
      let mapped := pyGet activity_code_mapping v
      if truthyStr mapped || pyHasKey activity_code_mapping v then .ok mapped
      else .err ("Invalid value for activity_code: " ++ value)
    | .err e => .err e
    | .crash e => .crash e

def process_place_of_injury (value : String) : PRes (Option String) :=
  if value = "" then .ok none
  else
    match try_parse_int value with
    | .ok v =>
      let mapped := pyGet place_of_injury_mapping v
      if truthyStr mapped || pyHasKey place_of_injury_mapping v then .ok mapped
      else .err ("Invalid value for place_of_injury: " ++ value)
    | .err e => .err e
    | .crash e => .crash e

def process_icd_code (value : String) : PRes (Option String) :=
  if value = "" then .ok none else .ok (some value)

def process_cause_recode_358 (value : String) : PRes (Option String) :=
  if value = "" then .ok none else .ok (some value)

def process_cause_recode_113 (value : String) : PRes (Option String) :=
  if value = "" then .ok none else .ok (some value)

def process_infant_cause_recode_130 (value : String) : PRes (Option String) :=
  if value = "" then .ok none else .ok (some value)

def process_cause_recode_39 (value : String) : PRes (Option Int) :=
  if value = "" then .ok none
  else
    match try_parse_int value with
    | .ok v => if 1 ≤ v ∧ v ≤ 42 then .ok (some v) else .ok none
    | .err e => .err e
    | .crash e => .crash e

def process_number_of_entity_axis_conditions (value : String) : PRes (Option Int) :=
  if value = "" then .ok none
  else
    match try_parse_int value with
    | .ok v =>
      if 0 ≤ v ∧ v ≤ 20 then .ok (some v)
      else .err ("Invalid value for number_of_entity_axis_conditions: " ++ toString v)
    | .err e => .err e
    | .crash e => .crash e

/-- One structured entity-axis condition (`certificate_part` is the string
`"PART_I"` or `"PART_II"` as produced by the source). -/
structure EntityAxisCondition where
  certificate_part : String
  certificate_line : Int
  condition : String
deriving DecidableEq

def process_entity_axis_condition (value : String) :
    PRes (Option EntityAxisCondition) :=
  if value = "" then .ok none
  else
    match pyCharAt value 0 with
    | .ok c0 =>
      match try_parse_int c0 with
      | .ok part_line =>
        let part := if part_line ≤ 5 then "PART_I" else "PART_II"
        match pyCharAt value 1 with
        | .ok c1 =>
          match try_parse_int c1 with
          | .ok certificate_line =>
            .ok (some ⟨part, certificate_line, pyDrop value 2⟩)
          | .err e => .err e
          | .crash e => .crash e
        | .err e => .err e
        | .crash e => .crash e
      | .err e => .err e
      | .crash e => .crash e
    | .err e => .err e
    | .crash e => .crash e

def process_number_of_record_axis_conditions (value : String) : PRes (Option Int) :=
  if value = "" then .ok none
  else
    match try_parse_int value with
    | .ok v =>
      if 0 ≤ v ∧ v ≤ 20 then .ok (some v)
      else .err ("Invalid value for number_of_record_axis_conditions: " ++ toString v)
    | .err e => .err e
    | .crash e => .crash e

def process_record_axis_condition (value : String) : PRes (Option String) :=
  if value = "" then .ok none else .ok (some value)

def process_race_imputation_flag (value : String) : PRes Bool :=
  if value = "" then .ok false
  else
    match try_parse_int value with
    | .ok v =>
      if v = 1 ∨ v = 2 then .ok true
      else .err ("Invalid value for race_imputation_flag: " ++ toString v)
    | .err e => .err e
    | .crash e => .crash e

def process_race_recode_6 (value : String) : PRes (Option String) :=
  if value = "" then .ok none
  else
    match try_parse_int value with
    | .ok v =>
      let mapped := dictGet race_recode_6_mapping v
      if truthyStr mapped then .ok mapped
      else .err ("Invalid value for race_recode_6: " ++ toString v)
    | .err e => .err e
    | .crash e => .crash e

def process_hispanic_origin (value : String) : PRes (Option String) :=
  if value = "" then .ok none
  else
    match try_parse_int value with
    | .ok v =>
      let mapped := get_in_range hispanic_origin_mapping v
      if truthyStr mapped || range_keyed_dict_has_key hispanic_origin_mapping v then
        .ok mapped
      else .err ("Invalid value for hispanic_origin: " ++ toString v)
    | .err e => .err e
    | .crash e => .crash e

def process_hispanic_origin_race_recode (value : String) : PRes (Option String) :=
  if value = "" then .ok none
  else
    match try_parse_int value with
    | .ok v =>
      let mapped := pyGet hispanic_origin_race_recode_mapping v
      if truthyStr mapped || pyHasKey hispanic_origin_race_recode_mapping v then
        .ok mapped
      else .err ("Invalid value for hispanic_origin_race_recode: " ++ toString v)
    | .err e => .err e
    | .crash e => .crash e

/-- Translation of `process_race_recode_40`.  On the composite path the source iterates
`for part in parts` and rebinds the loop variable (`part = "OTHER_ASIAN"`,
`part = "OTHER_PACIFIC_ISLANDER"`) without writing back into `parts`, so the
returned list is the bare `mapped.split("_")`. -/
def process_race_recode_40 (value : String) : PRes (Option (List String)) :=
  if value = "" then .ok none
  else
    match try_parse_int value with
    | .ok v =>
      let mapped := dictGet race_recode_40_mapping v
      if truthyStr mapped then
        if v ≤ 14 then .ok (some [mapped.getD ""])
        else .ok (some (pySplitUnderscore (mapped.getD "")))
      else .err ("Invalid value for race_recode_40: " ++ toString v)
    | .err e => .err e
    | .crash e => .crash e

def process_decedent_occupation_code (value : String) : PRes (Option String) :=
  if value = "" then .ok none else .ok (some value)

def process_decedent_occupation_recode (value : String) : PRes (Option String) :=
  if value = "" then .ok none
  else
    match try_parse_int value with
    | .ok v =>
      let mapped := pyGet decedent_occupation_recode_mapping v
      if truthyStr mapped || pyHasKey decedent_occupation_recode_mapping v then
        .ok mapped
      else .err ("Invalid value for decedent_occupation_recode: " ++ toString v)
    | .err e => .err e
    | .crash e => .crash e

def process_decedent_industry_code (value : String) : PRes (Option String) :=
  if value = "" then .ok none else .ok (some value)

def process_decedent_industry_recode (value : String) : PRes (Option String) :=
  if value = "" then .ok none
  else
    match try_parse_int value with
    | .ok v =>
      let mapped := pyGet decedent_industry_recode_mapping v
      if truthyStr mapped || pyHasKey decedent_industry_recode_mapping v then
        .ok mapped
      else .err ("Invalid value for decedent_industry_recode: " ++ toString v)
    | .err e => .err e
    | .crash e => .crash e

/-! ### One decoded line (`process_line`, `src/main.py` lines 1201-1327)

`process_line` walks the byte-range catalog `mapping` in declaration order,
slices `line[start - 1 : end].strip()` for each named field, dispatches to
the decoder, and stores the result under the returned key.  The ordered dict
it builds has a fixed key set, rendered here as a structure; the twenty
numbered entity-axis / record-axis slots are rendered as 20-element lists in
slot order. -/

structure ProcessedLine where
  record_type : Option String
  resident_status : Option String
  education : Option String
  month_of_death : Option Int
  sex : Option String
  detail_age : Option Int
  age_substitution_flag : Bool
  age_recode_52 : Option (Int × Int)
  age_recode_27 : Option (Int × Int)
  age_recode_12 : Option (Int × Int)
  infant_age_recode_22 : Option (Int × Int)
  place_of_death : Option String
  marital_status : Option String
  day_of_week_of_death : Option String
  injury_at_work : Option Bool
  manner_of_death : Option String
  method_of_disposition : Option String
  autopsy : Option Bool
  activity_code : Option String
  place_of_injury : Option String
  icd_code : Option String
  cause_recode_358 : Option String
  cause_recode_113 : Option String
  infant_cause_recode_130 : Option String
  cause_recode_39 : Option Int
  number_of_entity_axis_conditions : Option Int
  entity_axis_slots : List (Option EntityAxisCondition)
  number_of_record_axis_conditions : Option Int
  record_axis_slots : List (Option String)
  race_imputation_flag : Bool
  race_recode_6 : Option String
  hispanic_origin : Option String
  hispanic_origin_race_recode : Option String
  race_recode_40 : Option (List String)
  decedent_occupation_code : Option String
  decedent_occupation_recode : Option String
  decedent_industry_code : Option String
  decedent_industry_recode : Option String
deriving DecidableEq

/-- Byte ranges of the twenty entity-axis condition slots (catalog entries
`(165, 171) ... (298, 304)`). -/
def entity_axis_ranges : List (Nat × Nat) :=
  [(165, 171), (172, 178), (179, 185), (186, 192), (193, 199),
   (200, 206), (207, 213), (214, 220), (221, 227), (228, 234),
   (235, 241), (242, 248), (249, 255), (256, 262), (263, 269),
   (270, 276), (277, 283), (284, 290), (291, 297), (298, 304)]

/-- Byte ranges of the twenty record-axis condition slots (catalog entries
`(344, 348) ... (439, 443)`). -/
def record_axis_ranges : List (Nat × Nat) :=
  [(344, 348), (349, 353), (354, 358), (359, 363), (364, 368),
   (369, 373), (374, 378), (379, 383), (384, 388), (389, 393),
   (394, 398), (399, 403), (404, 408), (409, 413), (414, 418),
   (419, 423), (424, 428), (429, 433), (434, 438), (439, 443)]

/-- Model of `line[start - 1 : end].strip()` for a 1-indexed inclusive byte range;
a range wholly or partly past the end of the line slices to a shorter
(possibly empty) substring, exactly as Python slicing does. -/
def fieldSlice (line : String) : Nat → Nat → String :=
  fun a b => String.mk (pyStrip ((line.data.drop (a - 1)).take (b - a + 1)))

/-- The body of `process_line` over an arbitrary slicing function
`get start end`.  Decoders run in catalog declaration order, aborting on the
first failure; `reserved_positions` ranges and `current_data_year` (for which
the dispatch chain has no branch) are skipped.  `education_reporting_flag`
is decoded (so its errors propagate) but the source never stores it
(`d[k] = v` is missing in that branch). -/
def process_line_with (get : Nat → Nat → String) : PRes ProcessedLine := do
  let record_type ← process_record_type (get 19 19)
  let resident_status ← process_resident_status (get 20 20)
  let education ← process_education (get 63 63)
  let _education_reporting_flag ← process_education_reporting_flag (get 64 64)
  let month_of_death ← process_month_of_death (get 65 66)
  let sex ← process_sex (get 69 69)
  let detail_age ← process_detail_age (get 70 73)
  let age_substitution_flag ← process_age_substitution_flag (get 74 74)
  let age_recode_52 ← process_age_recode_52 (get 75 76)
  let age_recode_27 ← process_age_recode_27 (get 77 78)
  let age_recode_12 ← process_age_recode_12 (get 79 80)
  let infant_age_recode_22 ← process_infant_age_recode_22 (get 81 82)
  let place_of_death ← process_place_of_death (get 83 83)
  let marital_status ← process_marital_status (get 84 84)
  let day_of_week_of_death ← process_day_of_week_of_death (get 85 85)
  let injury_at_work ← process_injury_at_work (get 106 106)
  let manner_of_death ← process_manner_of_death (get 107 107)
  let method_of_disposition ← process_method_of_disposition (get 108 108)
  let autopsy ← process_autopsy (get 109 109)
  let activity_code ← process_activity_code (get 144 144)
  let place_of_injury ← process_place_of_injury (get 145 145)
  let icd_code ← process_icd_code (get 146 149)
  let cause_recode_358 ← process_cause_recode_358 (get 150 152)
  let cause_recode_113 ← process_cause_recode_113 (get 154 156)
  let infant_cause_recode_130 ← process_infant_cause_recode_130 (get 157 159)
  let cause_recode_39 ← process_cause_recode_39 (get 160 161)
  let number_of_entity_axis_conditions ←
    process_number_of_entity_axis_conditions (get 163 164)
  let entity_axis_slots ←
    mapPRes (fun r => process_entity_axis_condition (get r.1 r.2)) entity_axis_ranges
  let number_of_record_axis_conditions ←
    process_number_of_record_axis_conditions (get 341 342)
  let record_axis_slots ←
    mapPRes (fun r => process_record_axis_condition (get r.1 r.2)) record_axis_ranges
  let race_imputation_flag ← process_race_imputation_flag (get 448 448)
  let race_recode_6 ← process_race_recode_6 (get 450 450)
  let hispanic_origin ← process_hispanic_origin (get 484 486)
  let hispanic_origin_race_recode ← process_hispanic_origin_race_recode (get 487 488)
  let race_recode_40 ← process_race_recode_40 (get 489 490)
  let decedent_occupation_code ← process_decedent_occupation_code (get 806 809)
  let decedent_occupation_recode ← process_decedent_occupation_recode (get 810 811)
  let decedent_industry_code ← process_decedent_industry_code (get 812 815)
  let decedent_industry_recode ← process_decedent_industry_recode (get 816 817)
  pure {
    record_type, resident_status, education, month_of_death, sex,
    detail_age, age_substitution_flag, age_recode_52, age_recode_27,
    age_recode_12, infant_age_recode_22, place_of_death, marital_status,
    day_of_week_of_death, injury_at_work, manner_of_death,
    method_of_disposition, autopsy, activity_code, place_of_injury,
    icd_code, cause_recode_358, cause_recode_113, infant_cause_recode_130,
    cause_recode_39, number_of_entity_axis_conditions, entity_axis_slots,
    number_of_record_axis_conditions, record_axis_slots,
    race_imputation_flag, race_recode_6, hispanic_origin,
    hispanic_origin_race_recode, race_recode_40, decedent_occupation_code,
    decedent_occupation_recode, decedent_industry_code,
    decedent_industry_recode }

def process_line (line : String) : PRes ProcessedLine :=
  process_line_with (fieldSlice line)

/-! ### Row assembly (`process_lines_batch` loop body, lines 1418-1480) -/

/-- The value of `final_age` after the `or`-chain
`detail_age or infant_age_recode_22 or age_recode_52 or age_recode_27 or
age_recode_12 or None`: an `int` or a `(lower, upper)` tuple. -/
inductive FinalAge where
  | int (i : Int)
  | pair (l u : Int)
deriving DecidableEq

/-- Python `or` keeps the first truthy operand: `None` and the int `0` are
falsy, a pair (non-empty tuple) is always truthy.  In particular a decoded
detail age of `0` is skipped by the chain. -/
def finalAge (p : ProcessedLine) : Option FinalAge :=
  if truthyInt p.detail_age then p.detail_age.map FinalAge.int
  else match p.infant_age_recode_22 with
  | some lu => some (FinalAge.pair lu.1 lu.2)
  | none => match p.age_recode_52 with
    | some lu => some (FinalAge.pair lu.1 lu.2)
    | none => match p.age_recode_27 with
      | some lu => some (FinalAge.pair lu.1 lu.2)
      | none => match p.age_recode_12 with
        | some lu => some (FinalAge.pair lu.1 lu.2)
        | none => none

/-- The pair `(age_lower_bound, age_upper_bound)`: a tuple gives the pair, an int
gives equal bounds, otherwise both stay `None`. -/
def ageBounds (p : ProcessedLine) : Option Int × Option Int :=
  match finalAge p with
  | some (.pair l u) => (some l, some u)
  | some (.int i) => (some i, some i)
  | none => (none, none)

/-- One output row: the processed fields minus the dropped intermediate
fields (the five raw age fields, the two condition counts, the two flags;
`education_reporting_flag` was never stored), plus the resolved age bounds
and the two collected condition lists. -/
structure Row where
  record_type : Option String
  resident_status : Option String
  education : Option String
  month_of_death : Option Int
  sex : Option String
  place_of_death : Option String
  marital_status : Option String
  day_of_week_of_death : Option String
  injury_at_work : Option Bool
  manner_of_death : Option String
  method_of_disposition : Option String
  autopsy : Option Bool
  activity_code : Option String
  place_of_injury : Option String
  icd_code : Option String
  cause_recode_358 : Option String
  cause_recode_113 : Option String
  infant_cause_recode_130 : Option String
  cause_recode_39 : Option Int
  race_recode_6 : Option String
  hispanic_origin : Option String
  hispanic_origin_race_recode : Option String
  race_recode_40 : Option (List String)
  decedent_occupation_code : Option String
  decedent_occupation_recode : Option String
  decedent_industry_code : Option String
  decedent_industry_recode : Option String
  age_lower_bound : Option Int
  age_upper_bound : Option Int
  entity_axis_conditions : List EntityAxisCondition
  record_axis_conditions : List String
deriving DecidableEq

/-- Collect the twenty entity-axis slots: `if entity_axis_condition:` keeps
exactly the populated slots (a decoded slot is a non-empty dict, truthy). -/
def collectEntity (slots : List (Option EntityAxisCondition)) :
    List EntityAxisCondition :=
  slots.filterMap id

/-- Collect the twenty record-axis slots: `if record_axis_condition:` keeps
populated slots whose string is non-empty (string truthiness). -/
def collectRecord (slots : List (Option String)) : List String :=
  slots.filterMap (fun o =>
    match o with
    | some s => if s = "" then none else some s
    | none => none)

def assembleRow (p : ProcessedLine) : Row :=
  { record_type := p.record_type
    resident_status := p.resident_status
    education := p.education
    month_of_death := p.month_of_death
    sex := p.sex
    place_of_death := p.place_of_death
    marital_status := p.marital_status
    day_of_week_of_death := p.day_of_week_of_death
    injury_at_work := p.injury_at_work
    manner_of_death := p.manner_of_death
    method_of_disposition := p.method_of_disposition
    autopsy := p.autopsy
    activity_code := p.activity_code
    place_of_injury := p.place_of_injury
    icd_code := p.icd_code
    cause_recode_358 := p.cause_recode_358
    cause_recode_113 := p.cause_recode_113
    infant_cause_recode_130 := p.infant_cause_recode_130
    cause_recode_39 := p.cause_recode_39
    race_recode_6 := p.race_recode_6
    hispanic_origin := p.hispanic_origin
    hispanic_origin_race_recode := p.hispanic_origin_race_recode
    race_recode_40 := p.race_recode_40
    decedent_occupation_code := p.decedent_occupation_code
    decedent_occupation_recode := p.decedent_occupation_recode
    decedent_industry_code := p.decedent_industry_code
    decedent_industry_recode := p.decedent_industry_recode
    age_lower_bound := (ageBounds p).1
    age_upper_bound := (ageBounds p).2
    entity_axis_conditions := collectEntity p.entity_axis_slots
    record_axis_conditions := collectRecord p.record_axis_slots }

/-- Decode one line and assemble its row (the per-line work of
`process_lines_batch`). -/
def processLineRow (l : String) : PRes Row :=
  match process_line l with
  | .ok p => .ok (assembleRow p)
  | .err e => .err e
  | .crash e => .crash e

/-- Translation of `process_lines_batch` over one batch: sequential, first failure aborts
the batch (the progress reporting is advisory and dropped here). -/
def process_lines_batch (lines : List String) : PRes (List Row) :=
  mapPRes processLineRow lines

/-! ### Batch pipeline (`parallel_process_lines`, lines 1341-1403) -/

/-- Translation of `MAX_PARALLEL_PROCESSING = max((os.cpu_count() or 0) - 2, 1)`;
`os.cpu_count()` may return `None`.  Natural subtraction agrees with the
source's signed arithmetic here because the `max` with 1 absorbs every
non-positive difference. -/
def MAX_PARALLEL_PROCESSING (cpu_count : Option Nat) : Nat :=
  max (cpu_count.getD 0 - 2) 1

/-- The `lines[i : i + k]` chunks for `i = 0, k, 2k, ...` (the batch-splitting
loop).  `fuel` bounds the iteration count; `chunkList` supplies
`fuel = xs.length`, which suffices whenever `1 ≤ k`. -/
def chunkListGo {α : Type} (k : Nat) : Nat → List α → List (List α)
  | _, [] => []
  | 0, _ :: _ => []
  | fuel + 1, x :: xs => (x :: xs).take k :: chunkListGo k fuel ((x :: xs).drop k)

def chunkList {α : Type} (k : Nat) (xs : List α) : List (List α) :=
  chunkListGo k xs.length xs

/-- Batch splitting with `lines_per_process = max(1, len(lines) // W)` —
integer floor division, so the number of batches can exceed `W`. -/
def makeBatches (lines : List String) (W : Nat) : List (List String) :=
  chunkList (max 1 (lines.length / W)) lines

/-- Gathering `[future.result() for future, _ in futures]` re-raises the
first uncaught worker exception, in submission order, before any `Err`
propagation happens. -/
def first_crash {α : Type} (rs : List (PRes α)) : Option String :=
  rs.findSome? (fun r =>
    match r with
    | .crash e => some e
    | _ => none)

/-- Model of `pl.concat(results)`: raises on an empty list, otherwise concatenates
the per-batch tables in submission order. -/
def pl_concat (tables : List (List Row)) : PRes (List Row) :=
  match tables with
  | [] => .crash "ValueError: cannot concat empty list"
  | _ => .ok tables.flatten

/-- Translation of `parallel_process_lines` for a given worker count `W`: split into
batches, decode every batch, re-raise the first worker exception, otherwise
propagate the first batch `Err` (`[r.up() for r in results]`), otherwise
concatenate the per-batch tables in original submission order.  The final
`.cast(dataset_schema)` and the progress display are outside this model;
the cast neither reorders nor drops rows. -/
def parallel_process_lines (lines : List String) (W : Nat) : PRes (List Row) :=
  match first_crash ((makeBatches lines W).map process_lines_batch) with
  | some e => .crash e
  | none =>
    match mapPRes id ((makeBatches lines W).map process_lines_batch) with
    | .ok tables => pl_concat tables
    | .err e => .err e
    | .crash e => .crash e

/-! ### Concrete inputs used by the claims -/

/-- A processed line with every field blank (what `process_line ""`
produces). -/
def blankProcessed : ProcessedLine :=
  { record_type := none, resident_status := none, education := none,
    month_of_death := none, sex := none, detail_age := none,
    age_substitution_flag := false, age_recode_52 := none,
    age_recode_27 := none, age_recode_12 := none,
    infant_age_recode_22 := none, place_of_death := none,
    marital_status := none, day_of_week_of_death := none,
    injury_at_work := none, manner_of_death := none,
    method_of_disposition := none, autopsy := none, activity_code := none,
    place_of_injury := none, icd_code := none, cause_recode_358 := none,
    cause_recode_113 := none, infant_cause_recode_130 := none,
    cause_recode_39 := none, number_of_entity_axis_conditions := none,
    entity_axis_slots := List.replicate 20 none,
    number_of_record_axis_conditions := none,
    record_axis_slots := List.replicate 20 none,
    race_imputation_flag := false, race_recode_6 := none,
    hispanic_origin := none, hispanic_origin_race_recode := none,
    race_recode_40 := none, decedent_occupation_code := none,
    decedent_occupation_recode := none, decedent_industry_code := none,
    decedent_industry_recode := none }

/-- The row assembled from an all-blank line. -/
def blankRow : Row :=
  { record_type := none, resident_status := none, education := none,
    month_of_death := none, sex := none, place_of_death := none,
    marital_status := none, day_of_week_of_death := none,
    injury_at_work := none, manner_of_death := none,
    method_of_disposition := none, autopsy := none, activity_code := none,
    place_of_injury := none, icd_code := none, cause_recode_358 := none,
    cause_recode_113 := none, infant_cause_recode_130 := none,
    cause_recode_39 := none, race_recode_6 := none, hispanic_origin := none,
    hispanic_origin_race_recode := none, race_recode_40 := none,
    decedent_occupation_code := none, decedent_occupation_recode := none,
    decedent_industry_code := none, decedent_industry_recode := none,
    age_lower_bound := none, age_upper_bound := none,
    entity_axis_conditions := [], record_axis_conditions := [] }

/-- A line whose detail age decodes to the valid value `0` (selector `1` =
years, count `000`) and whose 27-way recode is code `03` (1 year): positions
70-73 hold `1000`, positions 77-78 hold `03`. -/
def c2line : String :=
  String.mk (List.replicate 69 ' ' ++ "1000   03".data)

/-- A line whose month-of-death bytes (65-66) hold the non-numeric `XY`. -/
def badMonthLine : String :=
  String.mk (List.replicate 64 ' ' ++ "XY".data)

/-- A line whose 52-way age-recode bytes (75-76) hold the same non-numeric
`XY`. -/
def badAge52Line : String :=
  String.mk (List.replicate 74 ' ' ++ "XY".data)

/-- A line whose entity-axis slot 3 (bytes 179-185) holds `216000` and whose
other fields are all blank. -/
def c9line : String :=
  String.mk (List.replicate 178 ' ' ++ "216000".data)

/-- A 70-byte truncated line: byte 70 (the first byte of the detail-age
range 70-73) is `1`, everything else blank. -/
def c10line : String :=
  String.mk (List.replicate 69 ' ' ++ "1".data)

/-- The processed fields of a line, when decoding succeeds. -/
def pOf (l : String) : Option ProcessedLine :=
  match process_line l with
  | .ok p => some p
  | _ => none

/-- The assembled row of a line, when decoding succeeds. -/
def rowOf (l : String) : Option Row :=
  match processLineRow l with
  | .ok r => some r
  | _ => none


/-! ### General lemmas about the failure monad and the batch splitter -/

theorem bindR_ok {α β : Type} (a : α) (f : α → PRes β) :
    (PRes.ok a).bindR f = f a := rfl

theorem bindR_err {α β : Type} (e : String) (f : α → PRes β) :
    (PRes.err e).bindR f = .err e := rfl

theorem bindR_crash {α β : Type} (e : String) (f : α → PRes β) :
    (PRes.crash e).bindR f = .crash e := rfl

theorem bindR_assoc {α β γ : Type} (m : PRes α) (f : α → PRes β) (g : β → PRes γ) :
    (m.bindR f).bindR g = m.bindR (fun a => (f a).bindR g) := by
  cases m <;> rfl

theorem bindR_pure {α : Type} (m : PRes α) : m.bindR PRes.ok = m := by
  cases m <;> rfl

theorem mapPRes_nil {α β : Type} (f : α → PRes β) : mapPRes f [] = .ok [] := rfl

theorem mapPRes_cons {α β : Type} (f : α → PRes β) (x : α) (xs : List α) :
    mapPRes f (x :: xs) =
      (f x).bindR (fun b => (mapPRes f xs).bindR (fun bs => .ok (b :: bs))) := rfl

theorem mapPRes_append {α β : Type} (f : α → PRes β) (xs ys : List α) :
    mapPRes f (xs ++ ys) =
      (mapPRes f xs).bindR (fun bs =>
        (mapPRes f ys).bindR (fun cs => .ok (bs ++ cs))) := by
  induction xs with
  | nil =>
    simp only [List.nil_append, mapPRes_nil, bindR_ok, List.nil_append]
    cases mapPRes f ys <;> rfl
  | cons x xs ih =>
    simp only [List.cons_append, mapPRes_cons, ih, bindR_assoc]
    cases f x <;> simp only [PRes.bindR]
    cases mapPRes f xs <;> simp only [PRes.bindR]
    cases mapPRes f ys <;> simp [PRes.bindR]

theorem mapPRes_flatten {α β : Type} (f : α → PRes β) (bs : List (List α)) :
    mapPRes f bs.flatten =
      (mapPRes id (bs.map (mapPRes f))).bindR (fun ts => .ok ts.flatten) := by
  induction bs with
  | nil => rfl
  | cons b bs ih =>
    simp only [List.flatten_cons, List.map_cons, mapPRes_append, mapPRes_cons,
      id_eq, ih, bindR_assoc]
    cases mapPRes f b <;> simp only [PRes.bindR]
    cases mapPRes id (bs.map (mapPRes f)) <;> simp [PRes.bindR]

theorem mapPRes_first_err {α β : Type} (f : α → PRes β) (pre : List α) (l : α)
    (post : List α) (e : String)
    (hpre : ∀ x ∈ pre, ∃ r, f x = .ok r) (hl : f l = .err e) :
    mapPRes f (pre ++ l :: post) = .err e := by
  induction pre with
  | nil => simp [mapPRes_cons, hl, PRes.bindR]
  | cons x xs ih =>
    obtain ⟨r, hr⟩ := hpre x (by simp)
    have h2 := ih (fun y hy => hpre y (by simp [hy]))
    simp [mapPRes_cons, hr, h2, PRes.bindR]

theorem mapPRes_ne_crash {α β : Type} (f : α → PRes β) (ls : List α)
    (h : ∀ x ∈ ls, ∀ m, f x ≠ .crash m) : ∀ m, mapPRes f ls ≠ .crash m := by
  induction ls with
  | nil => intro m; simp [mapPRes_nil]
  | cons x xs ih =>
    intro m hcon
    have ih2 := ih (fun y hy m' => h y (by simp [hy]) m')
    rw [mapPRes_cons] at hcon
    cases hx : f x with
    | ok b =>
      rw [hx, bindR_ok] at hcon
      cases hmx : mapPRes f xs with
      | ok bs => rw [hmx] at hcon; exact PRes.noConfusion hcon
      | err e' => rw [hmx] at hcon; exact PRes.noConfusion hcon
      | crash e' => exact ih2 e' hmx
    | err e' => rw [hx] at hcon; exact PRes.noConfusion hcon
    | crash e' => exact h x (by simp) e' hx

theorem mapPRes_ok_length {α β : Type} (f : α → PRes β) :
    ∀ (ls : List α) (rs : List β), mapPRes f ls = .ok rs → rs.length = ls.length := by
  intro ls
  induction ls with
  | nil => intro rs h; rw [mapPRes_nil] at h; cases h; rfl
  | cons x xs ih =>
    intro rs h
    rw [mapPRes_cons] at h
    cases hx : f x with
    | ok b =>
      rw [hx, bindR_ok] at h
      cases hmx : mapPRes f xs with
      | ok bs => rw [hmx] at h; cases h; simp [ih bs hmx]
      | err e => rw [hmx] at h; exact PRes.noConfusion h
      | crash e => rw [hmx] at h; exact PRes.noConfusion h
    | err e => rw [hx] at h; exact PRes.noConfusion h
    | crash e => rw [hx] at h; exact PRes.noConfusion h

theorem mapPRes_ok_of_all_ok {α β : Type} (f : α → PRes β) (ls : List α)
    (h : ∀ x ∈ ls, ∃ r, f x = .ok r) : ∃ rs, mapPRes f ls = .ok rs := by
  induction ls with
  | nil => exact ⟨[], rfl⟩
  | cons x xs ih =>
    obtain ⟨r, hr⟩ := h x (by simp)
    obtain ⟨rs, hrs⟩ := ih (fun y hy => h y (by simp [hy]))
    exact ⟨r :: rs, by simp [mapPRes_cons, hr, hrs, PRes.bindR]⟩

theorem mapPRes_id_ok_mem {α : Type} :
    ∀ (rs : List (PRes α)) (ts : List α), mapPRes id rs = .ok ts →
      ∀ r ∈ rs, ∃ a, r = .ok a := by
  intro rs
  induction rs with
  | nil => intro ts _ r hr; exact absurd hr (List.not_mem_nil r)
  | cons x xs ih =>
    intro ts h r hr
    rw [mapPRes_cons, id_eq] at h
    cases hx : x with
    | ok b =>
      rw [hx, bindR_ok] at h
      cases hmx : mapPRes id xs with
      | ok bs =>
        rcases List.mem_cons.mp hr with h1 | h1
        · exact ⟨b, by rw [h1, hx]⟩
        · exact ih bs hmx r h1
      | err e => rw [hmx] at h; exact PRes.noConfusion h
      | crash e => rw [hmx] at h; exact PRes.noConfusion h
    | err e => rw [hx] at h; exact PRes.noConfusion h
    | crash e => rw [hx] at h; exact PRes.noConfusion h

theorem mapPRes_id_ok_ne_nil {α : Type} (x : PRes α) (xs : List (PRes α))
    (ts : List α) (h : mapPRes id (x :: xs) = .ok ts) : ts ≠ [] := by
  rw [mapPRes_cons, id_eq] at h
  cases hx : x with
  | ok b =>
    rw [hx, bindR_ok] at h
    cases hmx : mapPRes id xs with
    | ok bs => rw [hmx] at h; cases h; simp
    | err e => rw [hmx] at h; exact PRes.noConfusion h
    | crash e => rw [hmx] at h; exact PRes.noConfusion h
  | err e => rw [hx] at h; exact PRes.noConfusion h
  | crash e => rw [hx] at h; exact PRes.noConfusion h

theorem first_crash_none_of {α : Type} (rs : List (PRes α))
    (h : ∀ r ∈ rs, ∀ m, r ≠ .crash m) : first_crash rs = none := by
  induction rs with
  | nil => rfl
  | cons r rs ih =>
    have ih2 := ih (fun y hy m => h y (by simp [hy]) m)
    simp only [first_crash, List.findSome?_cons] at ih2 ⊢
    cases hr : r with
    | ok a => exact ih2
    | err e => exact ih2
    | crash e => exact absurd hr (h r (by simp) e)

theorem chunkListGo_flatten {α : Type} (k : Nat) (hk : 1 ≤ k) :
    ∀ (fuel : Nat) (xs : List α), xs.length ≤ fuel →
      (chunkListGo k fuel xs).flatten = xs := by
  intro fuel
  induction fuel with
  | zero =>
    intro xs h
    cases xs with
    | nil => rfl
    | cons x t => simp at h
  | succ n ih =>
    intro xs h
    cases xs with
    | nil => rfl
    | cons x t =>
      simp only [chunkListGo, List.flatten_cons]
      rw [ih]
      · exact List.take_append_drop k (x :: t)
      · simp only [List.length_drop, List.length_cons]
        simp only [List.length_cons] at h
        omega

theorem chunkList_flatten {α : Type} (k : Nat) (hk : 1 ≤ k) (xs : List α) :
    (chunkList k xs).flatten = xs :=
  chunkListGo_flatten k hk xs.length xs le_rfl

theorem chunkListGo_mem {α : Type} (k : Nat) (hk : 1 ≤ k) :
    ∀ (fuel : Nat) (xs : List α) (b : List α), b ∈ chunkListGo k fuel xs →
      b ≠ [] ∧ b.length ≤ k := by
  intro fuel
  induction fuel with
  | zero =>
    intro xs b hb
    cases xs with
    | nil => exact absurd hb (List.not_mem_nil b)
    | cons x t => exact absurd hb (List.not_mem_nil b)
  | succ n ih =>
    intro xs b hb
    cases xs with
    | nil => exact absurd hb (List.not_mem_nil b)
    | cons x t =>
      simp only [chunkListGo] at hb
      rcases List.mem_cons.mp hb with h1 | h1
      · subst h1
        constructor
        · obtain ⟨k', rfl⟩ := Nat.exists_eq_add_of_le hk
          simp [List.take_cons]
        · exact List.length_take_le k (x :: t)
      · exact ih ((x :: t).drop k) b h1

theorem chunkList_ne_nil {α : Type} (k : Nat) (x : α) (xs : List α) :
    chunkList k (x :: xs) ≠ [] := by
  simp [chunkList, chunkListGo]

theorem makeBatches_flatten (lines : List String) (W : Nat) :
    (makeBatches lines W).flatten = lines :=
  chunkList_flatten _ (le_max_left 1 _) lines

/-! ### Trailing blank padding never changes a decoded line -/

theorem drop_replicate_space (n k : Nat) :
    (List.replicate k (' ' : Char)).drop n = List.replicate (k - n) ' ' := by
  induction k generalizing n with
  | zero => simp
  | succ k ih =>
    cases n with
    | zero => rfl
    | succ n =>
      simp only [List.replicate_succ, List.drop_succ_cons, Nat.succ_sub_succ]
      exact ih n

theorem take_replicate_space (w k : Nat) :
    (List.replicate k (' ' : Char)).take w = List.replicate (min w k) ' ' := by
  induction k generalizing w with
  | zero => simp
  | succ k ih =>
    cases w with
    | zero => simp
    | succ w => simp [List.replicate_succ, ih, Nat.succ_min_succ]

theorem drop_append_replicate (l : List Char) (k n : Nat) :
    ∃ m, (l ++ List.replicate k ' ').drop n = l.drop n ++ List.replicate m ' ' := by
  induction l generalizing n with
  | nil => exact ⟨k - n, by simp [drop_replicate_space]⟩
  | cons c l ih =>
    cases n with
    | zero => exact ⟨k, rfl⟩
    | succ n => simpa using ih n

theorem take_append_replicate (l : List Char) (k w : Nat) :
    ∃ m, (l ++ List.replicate k ' ').take w = l.take w ++ List.replicate m ' ' := by
  induction l generalizing w with
  | nil => exact ⟨min w k, by simp [take_replicate_space]⟩
  | cons c l ih =>
    cases w with
    | zero => exact ⟨0, by simp⟩
    | succ w =>
      obtain ⟨m, hm⟩ := ih w
      exact ⟨m, by simp [hm]⟩

theorem dropWhile_replicate_space (y : List Char) (m : Nat) :
    (List.replicate m ' ' ++ y).dropWhile pyIsSpace = y.dropWhile pyIsSpace := by
  induction m with
  | zero => rfl
  | succ m ih =>
    simp only [List.replicate_succ, List.cons_append, List.dropWhile_cons]
    simp [pyIsSpace, ih]

theorem dropWhile_replicate_space_nil (m : Nat) :
    (List.replicate m (' ' : Char)).dropWhile pyIsSpace = [] := by
  simpa using dropWhile_replicate_space [] m

theorem pyStrip_append_replicate (l : List Char) (m : Nat) :
    pyStrip (l ++ List.replicate m ' ') = pyStrip l := by
  unfold pyStrip
  rw [List.dropWhile_append]
  by_cases h : (l.dropWhile pyIsSpace).isEmpty
  · rw [if_pos h, dropWhile_replicate_space_nil]
    rw [List.isEmpty_iff] at h
    simp [h]
  · rw [if_neg h]
    rw [List.reverse_append, List.reverse_replicate, dropWhile_replicate_space]

theorem fieldSlice_append_replicate (line : String) (k a b : Nat) :
    fieldSlice (String.mk (line.data ++ List.replicate k ' ')) a b =
      fieldSlice line a b := by
  show String.mk (pyStrip (((line.data ++ List.replicate k ' ').drop (a - 1)).take (b - a + 1)))
    = String.mk (pyStrip ((line.data.drop (a - 1)).take (b - a + 1)))
  obtain ⟨m, hm⟩ := drop_append_replicate line.data k (a - 1)
  rw [hm]
  obtain ⟨m', hm'⟩ := take_append_replicate (line.data.drop (a - 1)) m (b - a + 1)
  rw [hm', pyStrip_append_replicate]

theorem process_line_pad (line : String) (k : Nat) :
    process_line (String.mk (line.data ++ List.replicate k ' ')) =
      process_line line := by
  unfold process_line
  exact congrArg process_line_with
    (funext fun a => funext fun b => fieldSlice_append_replicate line k a b)

/-! ### Claims -/

/-- C1: `process_race_recode_40` on the composite code `"22"` returns the
bare split `["ASIAN", "WHITE"]`, not `["OTHER_ASIAN", "WHITE"]`: the rename
loop rebinds its loop variable without updating the list.  The direct code
`"04"` returns `["ASIAN_INDIAN"]` unchanged.  The column element type the
source itself declares (`pl.Enum` over the first fifteen labels) contains
`OTHER_ASIAN` and `OTHER_PACIFIC_ISLANDER` but neither `ASIAN` nor `NHOPI`,
so the emitted decomposed parts contradict the source's own schema. -/
theorem c1_race_recode_40_eval :
    process_race_recode_40 "22" = .ok (some ["ASIAN", "WHITE"]) ∧
    process_race_recode_40 "22" ≠ .ok (some ["OTHER_ASIAN", "WHITE"]) ∧
    process_race_recode_40 "04" = .ok (some ["ASIAN_INDIAN"]) ∧
    process_race_recode_40 "18" = .ok (some ["BLACK", "NHOPI"]) ∧
    "ASIAN" ∉ race_recode_40_enum_values ∧
    "NHOPI" ∉ race_recode_40_enum_values ∧
    "OTHER_ASIAN" ∈ race_recode_40_enum_values ∧
    "OTHER_PACIFIC_ISLANDER" ∈ race_recode_40_enum_values := by
  decide

/-- C6: `process_detail_age` multiplies the count by the unit constant for
the supported selectors 1/2/4/5/6 and yields a successful absent result for
selectors 0, 7, 8, 9 — but the unsupported selector 3 passes the
`1 <= based_on <= 6` guard and raises an uncaught `KeyError` on the
five-entry unit dict instead of yielding absent. -/
theorem c6_detail_age_eval :
    process_detail_age "1010" = .ok (some (10 * YEARS_AS_MS)) ∧
    process_detail_age "2003" = .ok (some (3 * MONTHS_AS_MS)) ∧
    process_detail_age "4002" = .ok (some (2 * DAYS_AS_MS)) ∧
    process_detail_age "5012" = .ok (some (12 * HOURS_AS_MS)) ∧
    process_detail_age "6030" = .ok (some (30 * MINUTES_AS_MS)) ∧
    process_detail_age "0123" = .ok none ∧
    process_detail_age "7123" = .ok none ∧
    process_detail_age "8123" = .ok none ∧
    process_detail_age "9999" = .ok none ∧
    process_detail_age "3001" = .crash "KeyError: 3" := by
  decide

/-- C7: on blank (empty after trimming) input every field decoder returns a
successful absent result, with exactly two exceptions:
`process_age_substitution_flag` and `process_race_imputation_flag` return
`Ok(False)` — false, not absent. -/
theorem c7_blank_decoders :
    process_record_type "" = .ok none ∧
    process_resident_status "" = .ok none ∧
    process_education "" = .ok none ∧
    process_education_reporting_flag "" = .ok none ∧
    process_month_of_death "" = .ok none ∧
    process_sex "" = .ok none ∧
    process_detail_age "" = .ok none ∧
    process_age_recode_52 "" = .ok none ∧
    process_age_recode_27 "" = .ok none ∧
    process_age_recode_12 "" = .ok none ∧
    process_infant_age_recode_22 "" = .ok none ∧
    process_place_of_death "" = .ok none ∧
    process_marital_status "" = .ok none ∧
    process_day_of_week_of_death "" = .ok none ∧
    process_injury_at_work "" = .ok none ∧
    process_manner_of_death "" = .ok none ∧
    process_method_of_disposition "" = .ok none ∧
    process_autopsy "" = .ok none ∧
    process_activity_code "" = .ok none ∧
    process_place_of_injury "" = .ok none ∧
    process_icd_code "" = .ok none ∧
    process_cause_recode_358 "" = .ok none ∧
    process_cause_recode_113 "" = .ok none ∧
    process_infant_cause_recode_130 "" = .ok none ∧
    process_cause_recode_39 "" = .ok none ∧
    process_number_of_entity_axis_conditions "" = .ok none ∧
    process_entity_axis_condition "" = .ok none ∧
    process_number_of_record_axis_conditions "" = .ok none ∧
    process_record_axis_condition "" = .ok none ∧
    process_race_recode_6 "" = .ok none ∧
    process_hispanic_origin "" = .ok none ∧
    process_hispanic_origin_race_recode "" = .ok none ∧
    process_race_recode_40 "" = .ok none ∧
    process_decedent_occupation_code "" = .ok none ∧
    process_decedent_occupation_recode "" = .ok none ∧
    process_decedent_industry_code "" = .ok none ∧
    process_decedent_industry_recode "" = .ok none ∧
    process_age_substitution_flag "" = .ok false ∧
    process_race_imputation_flag "" = .ok false :=
  ⟨rfl, rfl, rfl, rfl, rfl, rfl, rfl, rfl, rfl, rfl, rfl, rfl, rfl, rfl,
   rfl, rfl, rfl, rfl, rfl, rfl, rfl, rfl, rfl, rfl, rfl, rfl, rfl, rfl,
   rfl, rfl, rfl, rfl, rfl, rfl, rfl, rfl, rfl, rfl, rfl⟩

/-- C9 counterexample: with entity-axis slot 3 holding `"216000"` and all
other slots blank, the single collected condition is
`{part: PART_I, line: 1, condition: "6000"}` (first digit `2` selects the
part, second digit `1` is the certificate line, the remainder is the code),
not the `{part: PART_I, line: 6, condition: "00"}` the claim states. -/
theorem c9_counterexample :
    (rowOf c9line).map (fun r => r.entity_axis_conditions) =
      some [{ certificate_part := "PART_I", certificate_line := 1,
              condition := "6000" }] ∧
    ({ certificate_part := "PART_I", certificate_line := 1,
       condition := "6000" } : EntityAxisCondition) ≠
      { certificate_part := "PART_I", certificate_line := 6,
        condition := "00" } := by
  decide

/-- C9 (amended): the line with entity-axis slot 3 populated as `"216000"`
and all nineteen other slots blank yields an entity-axis-conditions list of
length exactly 1 — blank slots contribute no entries — whose element is
`{part: PART_I, line: 1, condition: "6000"}`. -/
theorem c9_entity_slot :
    (rowOf c9line).map (fun r => r.entity_axis_conditions.length) = some 1 ∧
    (rowOf c9line).map (fun r => r.entity_axis_conditions) =
      some [{ certificate_part := "PART_I", certificate_line := 1,
              condition := "6000" }] ∧
    (pOf c9line).map (fun p => p.entity_axis_slots.get? 2) =
      some (some (some { certificate_part := "PART_I", certificate_line := 1,
                         condition := "6000" })) ∧
    (pOf c9line).map (fun p =>
      (p.entity_axis_slots.filter (fun o => o.isSome)).length) = some 1 := by
  decide

/-- C10 counterexample: the 70-byte line holding only `1` at byte 70 (the
first byte of the detail-age range 70-73) is shorter than the 817-byte
layout, yet `process_line` fails on it: the detail-age range slices to the
non-empty fragment `"1"`, whose count part `""` fails integer parsing. -/
theorem c10_counterexample :
    c10line.data.length = 70 ∧ 70 < 817 ∧
    process_line c10line = .err "Could not parse '' as an integer." := by
  decide

/-- C10 (amended): `process_line` never fails because of line length alone —
appending any number of trailing blanks to a line never changes its result
(every byte range past the end slices and trims to the same substring), and
the empty line decodes to `Ok` with every field absent (and the two flags
false).  However a range lying partly past the end can slice to a non-empty
fragment that fails its decoder, so not every truncated line decodes to
`Ok`. -/
theorem c10_truncation :
    (∀ (line : String) (k : Nat),
      process_line (String.mk (line.data ++ List.replicate k ' ')) =
        process_line line) ∧
    process_line "" = .ok blankProcessed :=
  ⟨process_line_pad, by decide⟩

/-- C2 counterexample: a line whose detail age is the valid decoded value
`0` (raw `"1000"`: 0 years) and whose 27-way recode is code 3 (1 year)
resolves to the recode's bounds, not the detail-age bounds `(0, 0)`: the
Python `or`-chain treats the int `0` as falsy and skips it. -/
theorem c2_counterexample :
    (pOf c2line).map (fun p => (p.detail_age, p.age_recode_27)) =
      some (some 0, some (YEARS_AS_MS, YEARS_AS_MS)) ∧
    (rowOf c2line).map (fun r => (r.age_lower_bound, r.age_upper_bound)) =
      some (some YEARS_AS_MS, some YEARS_AS_MS) ∧
    (some YEARS_AS_MS, some YEARS_AS_MS) ≠
      ((some 0, some 0) : Option Int × Option Int) := by
  decide

/-- C2 (amended): for every decoded line-record, the assembled row's age
bounds follow the fixed precedence detail-age > infant-22 > 52-way > 27-way
> 12-way, with one qualification forced by the source's `or`-chain: a
*populated* detail age counts only when it is non-zero (Python truthiness),
so a detail age of exactly `0` falls through to the recodes.  A non-zero
detail age beats every recode (lower = upper = the detail-age duration);
when all five encodings are absent, both bounds are absent. -/
theorem c2_age_precedence (p : ProcessedLine) :
    (∀ d : Int, p.detail_age = some d → d ≠ 0 →
      (assembleRow p).age_lower_bound = some d ∧
      (assembleRow p).age_upper_bound = some d) ∧
    (truthyInt p.detail_age = false →
      (∀ l u : Int, p.infant_age_recode_22 = some (l, u) →
        (assembleRow p).age_lower_bound = some l ∧
        (assembleRow p).age_upper_bound = some u) ∧
      (p.infant_age_recode_22 = none →
        (∀ l u : Int, p.age_recode_52 = some (l, u) →
          (assembleRow p).age_lower_bound = some l ∧
          (assembleRow p).age_upper_bound = some u) ∧
        (p.age_recode_52 = none →
          (∀ l u : Int, p.age_recode_27 = some (l, u) →
            (assembleRow p).age_lower_bound = some l ∧
            (assembleRow p).age_upper_bound = some u) ∧
          (p.age_recode_27 = none →
            (∀ l u : Int, p.age_recode_12 = some (l, u) →
              (assembleRow p).age_lower_bound = some l ∧
              (assembleRow p).age_upper_bound = some u) ∧
            (p.age_recode_12 = none →
              (assembleRow p).age_lower_bound = none ∧
              (assembleRow p).age_upper_bound = none))))) := by
  constructor
  · intro d hd h0
    constructor <;> simp [assembleRow, ageBounds, finalAge, hd, truthyInt, h0]
  · intro hfalse
    constructor
    · intro l u hi
      constructor <;> simp [assembleRow, ageBounds, finalAge, hfalse, hi]
    · intro hi
      constructor
      · intro l u h52
        constructor <;> simp [assembleRow, ageBounds, finalAge, hfalse, hi, h52]
      · intro h52
        constructor
        · intro l u h27
          constructor <;>
            simp [assembleRow, ageBounds, finalAge, hfalse, hi, h52, h27]
        · intro h27
          constructor
          · intro l u h12
            constructor <;>
              simp [assembleRow, ageBounds, finalAge, hfalse, hi, h52, h27, h12]
          · intro h12
            constructor <;>
              simp [assembleRow, ageBounds, finalAge, hfalse, hi, h52, h27, h12]

/-- C2 witness: a record with detail age 5 ms and a populated 27-way recode
resolves to the detail-age bounds `(5, 5)`. -/
theorem c2_age_precedence_witness :
    (assembleRow
      { blankProcessed with
          detail_age := some 5
          age_recode_27 := some (7, 9) }).age_lower_bound = some 5 ∧
    (assembleRow
      { blankProcessed with
          detail_age := some 5
          age_recode_27 := some (7, 9) }).age_upper_bound = some 5 :=
  (c2_age_precedence _).1 5 rfl (by decide)

/-- C5 counterexample: with 4 available cores the worker count is
`W = max(4 - 2, 1) = 2`, and 5 lines split with
`lines_per_process = max(1, 5 // 2) = 2` into **three** contiguous batches
`[2, 2, 1]` — the number of batches exceeds `W`, and no batch has
the `ceil(5/2) = 3` size the claim prescribes. -/
theorem c5_counterexample :
    MAX_PARALLEL_PROCESSING (some 4) = 2 ∧
    makeBatches ["a", "b", "c", "d", "e"] 2 = [["a", "b"], ["c", "d"], ["e"]] ∧
    (makeBatches ["a", "b", "c", "d", "e"] 2).length = 3 ∧
    ¬((makeBatches ["a", "b", "c", "d", "e"] 2).length ≤ 2) ∧
    (5 + 2 - 1) / 2 = 3 ∧
    makeBatches ["a", "b", "c", "d", "e"] 2 ≠
      [["a", "b", "c"], ["d", "e"]] := by
  decide

/-- C5 (amended): the worker count is `W = max(availableParallelism - 2, 1)`
(with `os.cpu_count() or 0` when parallelism is unknown), and the lines are
split, in original order, into contiguous batches of size
`max(1, floor(N / W))` — floor, not ceiling, so all batches except possibly
the last have exactly that size and the batch count may exceed `W`. -/
theorem c5_batching (c : Option Nat) (lines : List String) :
    1 ≤ MAX_PARALLEL_PROCESSING c ∧
    (MAX_PARALLEL_PROCESSING c : Int) = max ((c.getD 0 : Int) - 2) 1 ∧
    (makeBatches lines (MAX_PARALLEL_PROCESSING c)).flatten = lines ∧
    (∀ b ∈ makeBatches lines (MAX_PARALLEL_PROCESSING c),
      b ≠ [] ∧
      b.length ≤ max 1 (lines.length / MAX_PARALLEL_PROCESSING c)) := by
  refine ⟨le_max_right _ 1, ?_, makeBatches_flatten _ _, ?_⟩
  · unfold MAX_PARALLEL_PROCESSING
    rcases Nat.lt_or_ge (c.getD 0) 3 with h | h
    · have h2 : c.getD 0 ≤ 2 := by omega
      have h2i : ((c.getD 0 : Nat) : Int) ≤ 2 := by exact_mod_cast h2
      rw [Nat.sub_eq_zero_of_le h2]
      rw [max_eq_right (by linarith : ((c.getD 0 : Nat) : Int) - 2 ≤ 1)]
      simp
    · have h3i : (3 : Int) ≤ ((c.getD 0 : Nat) : Int) := by exact_mod_cast h
      rw [Nat.max_eq_left (by omega)]
      push_cast [Nat.cast_sub (by omega : 2 ≤ c.getD 0)]
      rw [max_eq_left (by linarith)]
  · intro b hb
    exact chunkListGo_mem _ (le_max_left 1 _) _ _ b hb

/-- C8: for every non-blank input that parses as an integer, an
out-of-range month of death (outside 1..12) is an error, an out-of-range
entity/record condition count (outside 0..20) is an error, while an
out-of-range 39-cause recode (outside 1..42) succeeds with absent — the
asymmetry between these bounded-integer decoders holds exactly as stated. -/
theorem c8_bounded_ranges (s : String) (v : Int)
    (hs : s ≠ "") (hv : try_parse_int s = .ok v) :
    (¬(1 ≤ v ∧ v ≤ 12) → ∃ e, process_month_of_death s = .err e) ∧
    (¬(0 ≤ v ∧ v ≤ 20) →
      (∃ e, process_number_of_entity_axis_conditions s = .err e) ∧
      (∃ e, process_number_of_record_axis_conditions s = .err e)) ∧
    (¬(1 ≤ v ∧ v ≤ 42) → process_cause_recode_39 s = .ok none) ∧
    ((1 ≤ v ∧ v ≤ 12) → process_month_of_death s = .ok (some v)) ∧
    ((0 ≤ v ∧ v ≤ 20) →
      process_number_of_entity_axis_conditions s = .ok (some v) ∧
      process_number_of_record_axis_conditions s = .ok (some v)) ∧
    ((1 ≤ v ∧ v ≤ 42) → process_cause_recode_39 s = .ok (some v)) := by
  refine ⟨?_, ?_, ?_, ?_, ?_, ?_⟩
  · intro hr
    unfold process_month_of_death
    rw [if_neg hs, hv]
    exact ⟨"Invalid value for month_of_death: " ++ toString v, by simp [if_neg hr]⟩
  · intro hr
    constructor
    · unfold process_number_of_entity_axis_conditions
      rw [if_neg hs, hv]
      exact ⟨"Invalid value for number_of_entity_axis_conditions: " ++ toString v,
        by simp [if_neg hr]⟩
    · unfold process_number_of_record_axis_conditions
      rw [if_neg hs, hv]
      exact ⟨"Invalid value for number_of_record_axis_conditions: " ++ toString v,
        by simp [if_neg hr]⟩
  · intro hr
    unfold process_cause_recode_39
    rw [if_neg hs, hv]
    simp [if_neg hr]
  · intro hr
    unfold process_month_of_death
    rw [if_neg hs, hv]
    simp [if_pos hr]
  · intro hr
    constructor
    · unfold process_number_of_entity_axis_conditions
      rw [if_neg hs, hv]
      simp [if_pos hr]
    · unfold process_number_of_record_axis_conditions
      rw [if_neg hs, hv]
      simp [if_pos hr]
  · intro hr
    unfold process_cause_recode_39
    rw [if_neg hs, hv]
    simp [if_pos hr]

/-- C8 witness: applied at the parsed value 99 (out of every error range)
and at 30 (in the 39-cause range but out of the month range). -/
theorem c8_bounded_ranges_witness :
    (∃ e, process_month_of_death "99" = .err e) ∧
    (∃ e, process_number_of_entity_axis_conditions "99" = .err e) ∧
    (∃ e, process_number_of_record_axis_conditions "99" = .err e) ∧
    process_cause_recode_39 "99" = .ok none ∧
    process_cause_recode_39 "30" = .ok (some 30) ∧
    process_month_of_death "07" = .ok (some 7) := by
  have h99 := c8_bounded_ranges "99" 99 (by decide) (by decide)
  have h30 := c8_bounded_ranges "30" 30 (by decide) (by decide)
  have h07 := c8_bounded_ranges "07" 7 (by decide) (by decide)
  exact ⟨h99.1 (by decide), (h99.2.1 (by decide)).1, (h99.2.1 (by decide)).2,
    h99.2.2.1 (by decide), h30.2.2.2.2.2 (by decide), h07.2.2.2.1 (by decide)⟩

/-- C3: for every input line sequence and worker count `W ≥ 1`, whatever the
resulting contiguous batch split, a successful pipeline run returns exactly
the per-line rows of the input in input order (the order-preserving
sequential map over the original lines), one row per line; the per-batch tables
are concatenated in original batch submission order, and gathering
`future.result()` in the submission-ordered futures list makes the merge
independent of batch completion order.  Conversely, when every line decodes
and the input is non-empty, the pipeline does produce such a table. -/
theorem c3_row_order (lines : List String) (W : Nat) (_hW : 1 ≤ W) :
    (∀ rows : List Row, parallel_process_lines lines W = .ok rows →
      mapPRes processLineRow lines = .ok rows ∧ rows.length = lines.length) ∧
    (lines ≠ [] → (∀ l ∈ lines, ∃ r, processLineRow l = .ok r) →
      ∃ rows, parallel_process_lines lines W = .ok rows) := by
  constructor
  · intro rows h
    unfold parallel_process_lines at h
    cases hfc : first_crash ((makeBatches lines W).map process_lines_batch) with
    | some e => rw [hfc] at h; exact absurd h (by simp)
    | none =>
      rw [hfc] at h
      cases hmr : mapPRes id ((makeBatches lines W).map process_lines_batch) with
      | err e => rw [hmr] at h; exact absurd h (by simp)
      | crash e => rw [hmr] at h; exact absurd h (by simp)
      | ok tables =>
        rw [hmr] at h
        cases tables with
        | nil => exact absurd h (by simp [pl_concat])
        | cons t ts =>
          have hrows : rows = (t :: ts).flatten := by
            have h' : PRes.ok (t :: ts).flatten = PRes.ok rows := h
            cases h'; rfl
          have h2 := mapPRes_flatten processLineRow (makeBatches lines W)
          rw [makeBatches_flatten] at h2
          have hmr2 : mapPRes id
              ((makeBatches lines W).map (mapPRes processLineRow)) =
              .ok (t :: ts) := hmr
          rw [hmr2, bindR_ok] at h2
          have hmain : mapPRes processLineRow lines = .ok rows := by
            rw [h2, hrows]
          exact ⟨hmain, mapPRes_ok_length processLineRow lines rows hmain⟩
  · intro hne hall
    obtain ⟨rows, hrows⟩ := mapPRes_ok_of_all_ok processLineRow lines hall
    have h2 := mapPRes_flatten processLineRow (makeBatches lines W)
    rw [makeBatches_flatten, hrows] at h2
    cases hmr : mapPRes id
        ((makeBatches lines W).map (mapPRes processLineRow)) with
    | err e => rw [hmr, bindR_err] at h2; exact absurd h2 (by simp)
    | crash e => rw [hmr, bindR_crash] at h2; exact absurd h2 (by simp)
    | ok tables =>
      refine ⟨rows, ?_⟩
      unfold parallel_process_lines
      have hfc : first_crash
          ((makeBatches lines W).map process_lines_batch) = none := by
        apply first_crash_none_of
        intro r hr m
        obtain ⟨b, hb, rfl⟩ := List.mem_map.mp hr
        have ⟨a, ha⟩ := mapPRes_id_ok_mem _ tables hmr (process_lines_batch b)
          (List.mem_map.mpr ⟨b, hb, rfl⟩)
        rw [ha]; simp
      rw [hfc]
      have hmr2 : mapPRes id
          ((makeBatches lines W).map process_lines_batch) = .ok tables := hmr
      rw [hmr2]
      have hbne : makeBatches lines W ≠ [] := by
        cases hL : lines with
        | nil => exact absurd hL hne
        | cons x xs => exact hL ▸ chunkList_ne_nil _ x xs
      obtain ⟨r0, rs0, hmap⟩ : ∃ r0 rs0,
          (makeBatches lines W).map (mapPRes processLineRow) = r0 :: rs0 := by
        cases hmb : makeBatches lines W with
        | nil => exact absurd hmb hbne
        | cons b bs => exact ⟨_, _, rfl⟩
      have htne : tables ≠ [] := by
        apply mapPRes_id_ok_ne_nil r0 rs0
        rw [← hmap]; exact hmr
      cases tables with
      | nil => exact absurd rfl htne
      | cons t ts =>
        rw [hmr, bindR_ok] at h2
        show PRes.ok (t :: ts).flatten = .ok rows
        exact h2.symm

/-- C3 witness: two blank lines with one worker produce the two blank rows
in order, and the pipeline succeeds on them. -/
theorem c3_row_order_witness :
    mapPRes processLineRow ["", ""] = .ok [blankRow, blankRow] ∧
    (∃ rows, parallel_process_lines ["", ""] 1 = .ok rows) := by
  have h := c3_row_order ["", ""] 1 (by decide)
  refine ⟨(h.1 [blankRow, blankRow] (by decide)).1, h.2 (by decide) ?_⟩
  intro l hl
  have hblank : l = "" := by
    rcases List.mem_cons.mp hl with h1 | h1
    · exact h1
    · rcases List.mem_cons.mp h1 with h2 | h2
      · exact h2
      · exact absurd h2 (List.not_mem_nil l)
  rw [hblank]
  exact ⟨blankRow, by decide⟩

/-- C4 counterexample: the integer-parse decode error does not identify the
failing field — a non-numeric month-of-death and a non-numeric 52-way
age-recode with the same raw text `XY` produce the identical error message
`Could not parse 'XY' as an integer.`, which the pipeline then returns
verbatim, so the terminating error cannot identify which field failed. -/
theorem c4_counterexample :
    process_line badMonthLine = .err "Could not parse 'XY' as an integer." ∧
    process_line badAge52Line = .err "Could not parse 'XY' as an integer." ∧
    badMonthLine ≠ badAge52Line ∧
    parallel_process_lines [badMonthLine] 1 =
      .err "Could not parse 'XY' as an integer." := by
  decide

/-- C4 (amended): for every batch partitioning (any `W ≥ 1`), an input whose
first failing line yields a decode `Err` makes the whole run return exactly
that decode error and no output table: the failing line aborts its batch,
and the submission-ordered gather propagates that batch's error.  The
statement assumes no line raises an uncaught exception (e.g. detail-age unit
selector 3), since `future.result()` would re-raise such an exception in
preference to any `Err`.  The error names the offending raw text; for
integer-parse failures it does not name the field (see the
counterexample). -/
theorem c4_fail_fast (pre post : List String) (l : String) (W : Nat)
    (e : String) (_hW : 1 ≤ W)
    (hpre : ∀ x ∈ pre, ∃ r, processLineRow x = .ok r)
    (hl : processLineRow l = .err e)
    (hpost : ∀ x ∈ post, ∀ m, processLineRow x ≠ .crash m) :
    parallel_process_lines (pre ++ l :: post) W = .err e := by
  have herr : mapPRes processLineRow (pre ++ l :: post) = .err e :=
    mapPRes_first_err _ pre l post e hpre hl
  have hnc : ∀ x ∈ pre ++ l :: post, ∀ m, processLineRow x ≠ .crash m := by
    intro x hx m
    rcases List.mem_append.mp hx with h1 | h1
    · obtain ⟨r, hr⟩ := hpre x h1
      rw [hr]; simp
    · rcases List.mem_cons.mp h1 with h2 | h2
      · rw [h2, hl]; simp
      · exact hpost x h2 m
  have hbnc : ∀ r ∈ (makeBatches (pre ++ l :: post) W).map process_lines_batch,
      ∀ m, r ≠ .crash m := by
    intro r hr m
    obtain ⟨b, hb, rfl⟩ := List.mem_map.mp hr
    show mapPRes processLineRow b ≠ .crash m
    apply mapPRes_ne_crash
    intro x hxb m'
    apply hnc
    rw [← makeBatches_flatten (pre ++ l :: post) W]
    exact List.mem_flatten.mpr ⟨b, hb, hxb⟩
  have hfc : first_crash
      ((makeBatches (pre ++ l :: post) W).map process_lines_batch) = none :=
    first_crash_none_of _ hbnc
  have h2 := mapPRes_flatten processLineRow (makeBatches (pre ++ l :: post) W)
  rw [makeBatches_flatten, herr] at h2
  unfold parallel_process_lines
  rw [hfc]
  cases hmr : mapPRes id
      ((makeBatches (pre ++ l :: post) W).map (mapPRes processLineRow)) with
  | ok tables => rw [hmr, bindR_ok] at h2; exact absurd h2.symm (by simp)
  | crash e' => rw [hmr, bindR_crash] at h2; exact absurd h2 (by simp)
  | err e' =>
    rw [hmr, bindR_err] at h2
    have he : e' = e := by cases h2; rfl
    have hmr2 : mapPRes id
        ((makeBatches (pre ++ l :: post) W).map process_lines_batch) =
        .err e' := hmr
    rw [hmr2, he]

/-- C4 witness: a blank line followed by the non-numeric-month line, one
worker: the run returns the month line's decode error. -/
theorem c4_fail_fast_witness :
    parallel_process_lines ["", badMonthLine] 1 =
      .err "Could not parse 'XY' as an integer." := by
  exact c4_fail_fast [""] [] badMonthLine 1
    "Could not parse 'XY' as an integer."
    (by decide)
    (by
      intro x hx
      have hblank : x = "" := by simpa using hx
      rw [hblank]
      exact ⟨blankRow, by decide⟩)
    (by decide)
    (by intro x hx; exact absurd hx (List.not_mem_nil x))

/-- C5 witness: with 4 cores (`W = 2`) and three lines, the first batch is
a non-empty chunk of at most `max(1, 3 // 2) = 1` line. -/
theorem c5_batching_witness :
    (["x"] : List String) ≠ [] ∧
    (["x"] : List String).length ≤
      max 1 ((["x", "y", "z"] : List String).length /
        MAX_PARALLEL_PROCESSING (some 4)) :=
  (c5_batching (some 4) ["x", "y", "z"]).2.2.2 ["x"] (by decide)
